import Mathlib

/-!
Verification of the mdify core (container lifecycle manager and docling HTTP
client) against its natural-language specification.

The development shallowly embeds the Python sources:
* `src/mdify/docling_client.py` — JSON values, response-shape extraction,
  and the four client operations (`convert_file`, `convert_file_async`,
  `poll_status`, `get_result`) plus `check_health`;
* `src/mdify/container.py` — the `DoclingContainer` lifecycle manager with
  the container engine modelled as a function from command lines to results;
* `src/mdify/cli.py` (`main`, the guarded batch region) — the
  `with DoclingContainer(...)` block and the per-file loop, with the Python
  context-manager semantics made explicit (entry failure skips exit).

Conventions: parsed JSON dictionaries are association lists with distinct
keys (the output of a JSON parser); Python truthiness is `truthy`; a method
that can raise returns `Except`/a sum of outcomes.  Wall-clock time in the
health-wait loop is discrete: the k-th probe happens at elapsed time `2*k`
seconds (probes themselves take no time, each miss is followed by a
2-second sleep), mirroring `time.time()`/`time.sleep(2)` in
`_wait_for_health`.
-/

namespace Mdify

/-! ### JSON values (the result of `response.json()`) -/

/-- Parsed JSON values.  Numbers are modelled as integers (no claim touches
floats).  `obj` is an association list in insertion order with distinct
keys, as produced by the Python `json` parser. -/
inductive Json where
  | null
  | bool (b : Bool)
  | num (n : Int)
  | str (s : String)
  | arr (elems : List Json)
  | obj (fields : List (String × Json))

/-- Python truthiness (`bool(v)`) of a parsed JSON value: `None`, `False`,
`0`, `""`, `[]`, `{}` are falsy, everything else truthy. -/
def truthy : Json → Bool
  | .null => false
  | .bool b => b
  | .num n => n != 0
  | .str s => s != ""
  | .arr elems => !elems.isEmpty
  | .obj fields => !fields.isEmpty

/-- Lookup supporting `d[k]` and `k in d`: the value stored under `k`, if any. -/
def lookupKey (fields : List (String × Json)) (k : String) : Option Json :=
  (fields.find? (fun p => p.1 == k)).map (fun p => p.2)

/-- Python `dict.get(k, default)`. -/
def getD (fields : List (String × Json)) (k : String) (default : Json) : Json :=
  (lookupKey fields k).getD default

/-- Model of `isinstance(v, (dict, list))`. -/
def Json.isContainer : Json → Bool
  | .obj _ => true
  | .arr _ => true
  | _ => false

mutual

/-- Python `str()` of a parsed JSON value (used in f-string error
messages): dicts/lists print with single-quoted strings, `None`,
`True`/`False`. -/
def jsonRepr : Json → String
  | .null => "None"
  | .bool true => "True"
  | .bool false => "False"
  | .num n => toString n
  | .str s => "\x27" ++ s ++ "\x27"
  | .arr elems => "[" ++ jsonReprList elems ++ "]"
  | .obj fields => "\x7b" ++ jsonReprFields fields ++ "\x7d"

/-- Comma-separated rendering of the elements of a JSON list. -/
def jsonReprList : List Json → String
  | [] => ""
  | [x] => jsonRepr x
  | x :: xs => jsonRepr x ++ ", " ++ jsonReprList xs

/-- Comma-separated rendering of the fields of a JSON object. -/
def jsonReprFields : List (String × Json) → String
  | [] => ""
  | [(k, v)] => "\x27" ++ k ++ "\x27: " ++ jsonRepr v
  | (k, v) :: xs => "\x27" ++ k ++ "\x27: " ++ jsonRepr v ++ ", " ++ jsonReprFields xs

end

/-! ### docling_client.py -/

/-- The `ConvertResult` dataclass.  The dataclass is untyped at runtime, so
`content` and `format` hold whatever JSON value the code stored. -/
structure ConvertResult where
  content : Json
  format : Json
  success : Bool
  error : Option String

/-- The `StatusResult` dataclass (`status` and `error` come straight from
`dict.get`, hence JSON values; missing `error` is Python `None`). -/
structure StatusResult where
  status : Json
  task_id : String
  error : Json

/-- Outcome of one client call: normal return, a raised
`DoclingHTTPError(status, message)`, or a raised `AttributeError`
(`.get` called on a non-dict, which no handler in the client catches). -/
inductive ClientOutcome (α : Type) where
  | ok (a : α)
  | httpError (status : Nat) (message : String)
  | attrError

/-- The observable behaviour of the one HTTP request a client call makes:
either the transport raised `requests.RequestException`, or a response
arrived with a status code, a body text, and the outcome of
`response.json()` (`Except.error` models `JSONDecodeError`, which
subclasses `RequestException`). -/
inductive Transport where
  | exc (msg : String)
  | resp (status : Nat) (text : String) (jsonBody : Except String Json)

/-- Embedding of `_extract_content`: shape-tolerant extraction.  `Except.error` is the
`AttributeError` raised when `result_data["document"]` is not a dict and
`.get` is called on it. -/
def extract_content (result_data : Json) : Except Unit Json :=
  match result_data with
  | .obj fields =>
    match lookupKey fields "document" with
    | some doc =>
      match doc with
      | .obj dfields =>
        let primary := getD dfields "md_content" (Json.str "")
        .ok (if truthy primary then primary else getD dfields "content" (Json.str ""))
      | _ => .error ()
    | none => .ok (getD fields "content" (Json.str ""))
  | .arr (first :: _) =>
    match first with
    | .obj fields =>
      match lookupKey fields "document" with
      | some doc =>
        match doc with
        | .obj dfields =>
          let primary := getD dfields "md_content" (Json.str "")
          .ok (if truthy primary then primary else getD dfields "content" (Json.str ""))
        | _ => .error ()
      | none => .ok (getD fields "content" (Json.str ""))
    | _ => .ok (Json.str "")
  | _ => .ok (Json.str "")

/-- Embedding of `check_health`: 200 means healthy, any transport exception means not. -/
def check_health (t : Transport) : Bool :=
  match t with
  | .exc _ => false
  | .resp status _ _ => status == 200

/-- Model of `response.text or default`, used when raising `DoclingHTTPError`. -/
def textOr (text default : String) : String :=
  if text = "" then default else text

/-- Embedding of `convert_file`: synchronous conversion.  `t` is the behaviour of the
`requests.post` call (file opening and multipart encoding are collaborator
concerns with no bearing on the modelled control flow). -/
def convert_file (t : Transport) (to_format : String) : ClientOutcome ConvertResult :=
  match t with
  | .exc msg =>
    .ok ⟨Json.str "", Json.str to_format, false, some msg⟩
  | .resp status text jsonBody =>
    if status ≠ 200 then
      .httpError status (textOr text "Conversion failed")
    else
      match jsonBody with
      | .error msg => .ok ⟨Json.str "", Json.str to_format, false, some msg⟩
      | .ok result_data =>
        match extract_content result_data with
        | .error _ => .attrError
        | .ok content =>
          if truthy content || result_data.isContainer then
            .ok ⟨content, Json.str to_format, true, none⟩
          else
            .httpError 200 ("Unexpected response format: " ++ jsonRepr result_data)

/-- Embedding of `convert_file_async`: submit for background conversion, returning the
task id (the raw JSON value stored under `"task_id"`). -/
def convert_file_async (t : Transport) : ClientOutcome Json :=
  match t with
  | .exc msg => .httpError 500 msg
  | .resp status text jsonBody =>
    if status ≠ 200 then
      .httpError status (textOr text "Async conversion failed")
    else
      match jsonBody with
      | .error msg => .httpError 500 msg
      | .ok result_data =>
        match result_data with
        | .obj fields =>
          let task_id := getD fields "task_id" Json.null
          if truthy task_id then .ok task_id
          else .httpError 200 ("No task_id in response: " ++ jsonRepr result_data)
        | _ => .attrError

/-- Embedding of `poll_status`: status of an async task. -/
def poll_status (t : Transport) (task_id : String) : ClientOutcome StatusResult :=
  match t with
  | .exc msg => .httpError 500 msg
  | .resp status text jsonBody =>
    if status ≠ 200 then
      .httpError status (textOr text "Status poll failed")
    else
      match jsonBody with
      | .error msg => .httpError 500 msg
      | .ok result_data =>
        match result_data with
        | .obj fields =>
          .ok ⟨getD fields "status" (Json.str "unknown"), task_id, getD fields "error" Json.null⟩
        | _ => .attrError

/-- Embedding of `get_result`: fetch the result of a completed async task, with the same
shape-tolerant extraction as the synchronous path plus a `format` field. -/
def get_result (t : Transport) : ClientOutcome ConvertResult :=
  match t with
  | .exc msg => .ok ⟨Json.str "", Json.str "md", false, some msg⟩
  | .resp status text jsonBody =>
    if status ≠ 200 then
      .httpError status (textOr text "Result retrieval failed")
    else
      match jsonBody with
      | .error msg => .ok ⟨Json.str "", Json.str "md", false, some msg⟩
      | .ok result_data =>
        match extract_content result_data with
        | .error _ => .attrError
        | .ok content =>
          let result_format :=
            match result_data with
            | .obj fields => getD fields "format" (Json.str "md")
            | .arr (.obj fields :: _) => getD fields "format" (Json.str "md")
            | _ => Json.str "md"
          if truthy content || result_data.isContainer then
            .ok ⟨content, result_format, true, none⟩
          else
            .httpError 200 ("Unexpected response format: " ++ jsonRepr result_data)

/-! ### container.py -/

/-- Python `str.strip()`: drop whitespace from both ends (structural, so
that concrete runs evaluate). -/
def pyStrip (s : String) : String :=
  ⟨((s.data.dropWhile Char.isWhitespace).reverse.dropWhile Char.isWhitespace).reverse⟩

/-- Model of `subprocess.CompletedProcess` (with `capture_output=True, text=True`). -/
structure EngineResult where
  returncode : Int
  stdout : String
  stderr : String

/-- The container engine as an external collaborator: each issued command
line produces a completed process. -/
def Engine : Type := List String → EngineResult

/-- Model of `subprocess.CalledProcessError(returncode, cmd, output, stderr)`. -/
structure CalledProcessError where
  returncode : Int
  cmd : List String
  output : String
  stderr : String

/-- Model of `subprocess.run(cmd, capture_output=True, check=check)`: raises
`CalledProcessError` exactly when `check` is set and the exit code is
nonzero. -/
def subprocessRun (eng : Engine) (cmd : List String) (check : Bool) :
    Except CalledProcessError EngineResult :=
  let r := eng cmd
  if check && r.returncode != 0 then
    .error ⟨r.returncode, cmd, r.stdout, r.stderr⟩
  else
    .ok r

/-- Exceptions the lifecycle manager can raise. -/
inductive ContainerErr where
  | calledProcessError (e : CalledProcessError)
  | timeoutError (msg : String)

/-- Outcome of one health probe at a given poll index: `check_health`
returned a boolean, or the probe raised (swallowed by the
`except Exception: pass` in `_wait_for_health`). -/
inductive Probe where
  | ok (healthy : Bool)
  | exc

/-- Result of `_wait_for_health` with the elapsed time (in seconds since
polling began) at which it returned or raised `TimeoutError`. -/
inductive HealthOutcome where
  | healthy (elapsed : Nat)
  | timedOut (elapsed : Nat)

/-- The `while time.time() - start_time < timeout` loop of
`_wait_for_health`: at poll index `k` (elapsed time `2*k`) the loop guard
is checked, then one probe runs; a healthy probe returns, anything else
(unhealthy or raised) sleeps 2 seconds and continues. -/
def healthLoop (probe : Nat → Probe) (timeout : Nat) (k : Nat) : HealthOutcome :=
  if h : 2 * k < timeout then
    match probe k with
    | .ok true => .healthy (2 * k)
    | _ => healthLoop probe timeout (k + 1)
  else
    .timedOut (2 * k)
termination_by timeout - 2 * k
decreasing_by omega

/-- Embedding of `_wait_for_health(timeout)`: polling starts at elapsed time 0. -/
def wait_for_health (probe : Nat → Probe) (timeout : Nat) : HealthOutcome :=
  healthLoop probe timeout 0

/-- Observable actions of the lifecycle manager.  `stopCall` marks entry
into the `stop()` method (the invocation count observed in the end-to-end scenario);
`engineRun` is one engine command issued through `subprocess.run`. -/
inductive Event where
  | stopCall
  | engineRun (cmd : List String)

/-- Attribute state of `DoclingContainer` after `__init__` (the generated
unique name is a plain field here; `uuid.uuid4()` is a collaborator). -/
structure DoclingContainer where
  runtime : String
  image : String
  port : Nat
  timeout : Nat
  container_name : String
  container_id : Option String

/-- Embedding of `_cleanup_stale_containers`: list running `mdify-serve-*` instances and
best-effort stop each (both engine calls with `check=False`, so no
exception can escape); returns the issued commands. -/
def cleanup_stale_containers (eng : Engine) (c : DoclingContainer) : List Event :=
  let psCmd := [c.runtime, "ps", "--filter", "name=mdify-serve-", "--format", "\x7b\x7b.Names\x7d\x7d"]
  match subprocessRun eng psCmd false with
  | .error _ => [.engineRun psCmd]
  | .ok r =>
    if r.returncode != 0 || pyStrip r.stdout == "" then
      [.engineRun psCmd]
    else
      .engineRun psCmd ::
        (((pyStrip r.stdout).splitOn "\n").filter (fun name => name ≠ "")).map
          (fun name => .engineRun [c.runtime, "stop", name])

/-- The `docker/podman run -d --rm --name ... -p ... -e ...` command built
in `start`. -/
def runCmd (c : DoclingContainer) : List String :=
  [c.runtime, "run", "-d", "--rm", "--name", c.container_name,
   "-p", toString c.port ++ ":5001",
   "-e", "DOCLING_SERVE_MAX_SYNC_WAIT=" ++ toString c.timeout,
   c.image]

/-- Model of `e.stderr.strip() or e.stdout.strip() or "Unknown error"`. -/
def launchErrorMsg (stderr stdout : String) : String :=
  if pyStrip stderr ≠ "" then pyStrip stderr
  else if pyStrip stdout ≠ "" then pyStrip stdout
  else "Unknown error"

/-- Embedding of `DoclingContainer.start(timeout)`: sweep stale instances, launch the
detached container (launch failure re-raised as `CalledProcessError` with
a rewritten stderr, no retry), then block in `_wait_for_health`.  Returns
the updated manager state or the raised exception, plus the events. -/
def DoclingContainer.start (eng : Engine) (probe : Nat → Probe)
    (c : DoclingContainer) (timeout : Nat) :
    Except ContainerErr DoclingContainer × List Event :=
  let cleanupEvents := cleanup_stale_containers eng c
  let events := cleanupEvents ++ [.engineRun (runCmd c)]
  match subprocessRun eng (runCmd c) true with
  | .error e =>
    (.error (.calledProcessError ⟨e.returncode, e.cmd, e.output,
      "Failed to start container: " ++ launchErrorMsg e.stderr e.output⟩), events)
  | .ok r =>
    let started := { c with container_id := some (pyStrip r.stdout) }
    match wait_for_health probe timeout with
    | .healthy _ => (.ok started, events)
    | .timedOut _ =>
      (.error (.timeoutError
        ("Container failed to become healthy within " ++ toString timeout ++ "s")), events)

/-- Embedding of `DoclingContainer.stop()`: one `stop` command with `check=False` when a
name exists; exceptions cannot arise because nothing in the body checks
the exit code.  Emits `stopCall` at method entry. -/
def DoclingContainer.stop (eng : Engine) (c : DoclingContainer) :
    Except ContainerErr Unit × List Event :=
  if c.container_name = "" then
    (.ok (), [.stopCall])
  else
    match subprocessRun eng [c.runtime, "stop", c.container_name] false with
    | .ok _ => (.ok (), [.stopCall, .engineRun [c.runtime, "stop", c.container_name]])
    | .error e => (.error (.calledProcessError e), [.stopCall, .engineRun [c.runtime, "stop", c.container_name]])

/-- Calling `stop()` `n` times in sequence, with arbitrary (possibly
different) engine behaviour at each call; stops at the first raised
exception, if any. -/
def stopN (engs : Nat → Engine) (c : DoclingContainer) : Nat → Except ContainerErr Unit
  | 0 => .ok ()
  | n + 1 =>
    match (DoclingContainer.stop (engs n) c).1 with
    | .ok _ => stopN engs c n
    | .error e => .error e

/-! ### cli.py `main`: the guarded batch region (lines 722-823) -/

/-- What the environment does for one file of the batch loop:
* `skip`      — output exists and `--overwrite` unset: counted skipped;
* `convOk`    — `convert_file` returned `success=True`: written, counted;
* `convFail`  — `convert_file` returned a failed result: counted failed;
* `convRaise` — the guarded conversion/write raised an `Exception`,
                caught by the per-file `except Exception`: counted failed;
* `interrupt` — a `KeyboardInterrupt` fired during this file;
* `fatal`     — an exception escaped the per-file handler (e.g. an
                `OSError` outside the inner `try`). -/
inductive FileStep where
  | skip
  | convOk
  | convFail
  | convRaise
  | interrupt
  | fatal (msg : String)

/-- The `success_count`/`skipped_count`/`failed_count` accumulators. -/
structure Counters where
  success : Nat
  skipped : Nat
  failed : Nat

/-- How the `for` loop over files ended. -/
inductive BodyExit where
  | norm
  | keyboardInterrupt
  | exc (msg : String)

/-- The per-file loop: sequential, stopping early only when an exception
or interrupt escapes the loop body. -/
def processFiles : List FileStep → Counters → Counters × BodyExit
  | [], acc => (acc, .norm)
  | step :: rest, acc =>
    match step with
    | .skip => processFiles rest { acc with skipped := acc.skipped + 1 }
    | .convOk => processFiles rest { acc with success := acc.success + 1 }
    | .convFail => processFiles rest { acc with failed := acc.failed + 1 }
    | .convRaise => processFiles rest { acc with failed := acc.failed + 1 }
    | .interrupt => (acc, .keyboardInterrupt)
    | .fatal msg => (acc, .exc msg)

/-- Exit-code computation at the end of `main`. -/
def exitCodeOf (acc : Counters) : Nat :=
  if acc.failed > 0 then 1
  else if acc.success = 0 ∧ acc.skipped > 0 then 0
  else if acc.success > 0 then 0
  else 1

/-- What escapes `main` when it does not return an exit code. -/
inductive PyExc where
  | containerErr (e : ContainerErr)
  | other (msg : String)

/-- Result of the guarded batch region: a returned exit code, or an
exception propagating out of `main`. -/
inductive MainOutcome where
  | exitCode (n : Nat)
  | uncaught (e : PyExc)

/-- The `try: with DoclingContainer(...) as container: <loop>` region of
`main`, with the Python context-manager semantics: `__enter__` runs
`start()` with its default `timeout=120`; if `__enter__` raises, no
`__exit__` call happens and the exception propagates (it is not a
`KeyboardInterrupt`, so the `except KeyboardInterrupt` handler does not
catch it); if `__enter__` succeeds, `__exit__` (which calls `stop()` and
returns `False`) runs on every way the body ends, after which a normal end
reaches the summary and exit-code computation, a `KeyboardInterrupt`
reaches the handler returning 130, and any other exception propagates. -/
def mainBatch (eng : Engine) (probe : Nat → Probe) (c : DoclingContainer)
    (files : List FileStep) : MainOutcome × List Event :=
  let entered := DoclingContainer.start eng probe c 120
  match entered.1 with
  | .error e => (.uncaught (.containerErr e), entered.2)
  | .ok started =>
    let (acc, bodyExit) := processFiles files ⟨0, 0, 0⟩
    let events := entered.2 ++ (DoclingContainer.stop eng started).2
    match bodyExit with
    | .norm => (.exitCode (exitCodeOf acc), events)
    | .keyboardInterrupt => (.exitCode 130, events)
    | .exc msg => (.uncaught (.other msg), events)

/-- Number of `stop()` invocations recorded in a trace. -/
def stopCalls (events : List Event) : Nat :=
  events.countP (fun e => match e with | .stopCall => true | _ => false)

/-! ### Theorems: conversion client -/

/-- C4: `convert_file` extracts `"X"` from each of the six 200-response
shapes `{"document":{"md_content":"X"}}`, `{"document":{"content":"X"}}`,
`{"content":"X"}`, and each of the three wrapped as the sole element of a
one-element list. -/
theorem convert_file_six_shapes :
    convert_file (.resp 200 ""
        (.ok (Json.obj [("document", Json.obj [("md_content", Json.str "X")])]))) "md" =
      .ok ⟨Json.str "X", Json.str "md", true, none⟩ ∧
    convert_file (.resp 200 ""
        (.ok (Json.obj [("document", Json.obj [("content", Json.str "X")])]))) "md" =
      .ok ⟨Json.str "X", Json.str "md", true, none⟩ ∧
    convert_file (.resp 200 ""
        (.ok (Json.obj [("content", Json.str "X")]))) "md" =
      .ok ⟨Json.str "X", Json.str "md", true, none⟩ ∧
    convert_file (.resp 200 ""
        (.ok (Json.arr [Json.obj [("document", Json.obj [("md_content", Json.str "X")])]]))) "md" =
      .ok ⟨Json.str "X", Json.str "md", true, none⟩ ∧
    convert_file (.resp 200 ""
        (.ok (Json.arr [Json.obj [("document", Json.obj [("content", Json.str "X")])]]))) "md" =
      .ok ⟨Json.str "X", Json.str "md", true, none⟩ ∧
    convert_file (.resp 200 ""
        (.ok (Json.arr [Json.obj [("content", Json.str "X")]]))) "md" =
      .ok ⟨Json.str "X", Json.str "md", true, none⟩ := by
  exact ⟨rfl, rfl, rfl, rfl, rfl, rfl⟩

/-- C2 counterexample: for the 200 body
`{"document": {}, "content": "X"}` — whose document object yields no
non-empty value and whose top-level `content` is non-empty — extraction
yields the empty string, not the top-level `"X"`: once a `document` key is
present the top-level field is never consulted. -/
theorem extract_toplevel_shadowed_cex :
    convert_file (.resp 200 ""
        (.ok (Json.obj [("document", Json.obj []), ("content", Json.str "X")]))) "md" =
      .ok ⟨Json.str "", Json.str "md", true, none⟩ ∧
    Json.str "" ≠ Json.str "X" := by
  refine ⟨rfl, fun h => ?_⟩
  injection h with h
  exact absurd h (by decide)

/-- C2 (amended): extraction of an object response branches on the
presence of a `document` key.  When present (and a dict), the field
`md_content` of the document is tried first and its `content` second, the first truthy
value winning, else the empty-string default; the top-level `content`
field is consulted only when no `document` key exists. -/
theorem extract_content_order (fields dfields : List (String × Json)) :
    (lookupKey fields "document" = some (Json.obj dfields) →
      extract_content (Json.obj fields) =
        .ok (if truthy (getD dfields "md_content" (Json.str "")) then
               getD dfields "md_content" (Json.str "")
             else getD dfields "content" (Json.str ""))) ∧
    (lookupKey fields "document" = none →
      extract_content (Json.obj fields) = .ok (getD fields "content" (Json.str ""))) := by
  constructor
  · intro h
    simp [extract_content, h]
  · intro h
    simp [extract_content, h]

/-- Witness for `extract_content_order`: a document object whose
`md_content` is missing falls back to its `content` field. -/
theorem extract_content_order_witness :
    lookupKey [("document", Json.obj [("content", Json.str "Y")])] "document" =
      some (Json.obj [("content", Json.str "Y")]) ∧
    extract_content (Json.obj [("document", Json.obj [("content", Json.str "Y")])]) =
      .ok (Json.str "Y") := by
  refine ⟨rfl, ?_⟩
  have h := (extract_content_order [("document", Json.obj [("content", Json.str "Y")])]
      [("content", Json.str "Y")]).1 rfl
  rw [h]
  rfl

/-- C7: a transport-level failure (`requests.RequestException` with text
`msg`) during `convert_file` returns a failed `ConvertResult` carrying the
exception text as its (non-empty) error, and raises nothing. -/
theorem convert_file_transport_error (msg to_format : String) (h : msg ≠ "") :
    convert_file (.exc msg) to_format =
      .ok ⟨Json.str "", Json.str to_format, false, some msg⟩ ∧
    (some msg : Option String) ≠ some "" := by
  refine ⟨rfl, fun hc => ?_⟩
  exact h (Option.some.inj hc)

/-- Witness for `convert_file_transport_error` at a connection-refused
message. -/
theorem convert_file_transport_error_witness :
    "Connection refused" ≠ "" ∧
    (convert_file (.exc "Connection refused") "md" =
        .ok ⟨Json.str "", Json.str "md", false, some "Connection refused"⟩ ∧
      (some "Connection refused" : Option String) ≠ some "") :=
  ⟨by decide, convert_file_transport_error "Connection refused" "md" (by decide)⟩

/-- C9: a 200 response whose body is a recognized container (dict or
list) from which extraction yields no truthy content still produces a
successful `ConvertResult` holding that (empty) content and no error. -/
theorem convert_file_empty_content_success (result_data v : Json) (to_format text : String)
    (hc : result_data.isContainer = true)
    (he : extract_content result_data = .ok v)
    (hv : truthy v = false) :
    convert_file (.resp 200 text (.ok result_data)) to_format =
      .ok ⟨v, Json.str to_format, true, none⟩ := by
  simp [convert_file, he, hv, hc]

/-- Witness for `convert_file_empty_content_success` at the empty dict
body `{}`. -/
theorem convert_file_empty_content_success_witness :
    (Json.obj []).isContainer = true ∧
    extract_content (Json.obj []) = .ok (Json.str "") ∧
    truthy (Json.str "") = false ∧
    convert_file (.resp 200 "" (.ok (Json.obj []))) "md" =
      .ok ⟨Json.str "", Json.str "md", true, none⟩ :=
  ⟨rfl, rfl, by decide,
    convert_file_empty_content_success (Json.obj []) (Json.str "") "md" "" rfl rfl (by decide)⟩

/-- C10: a 200 status-poll response whose dict body has no `status` field
yields a `StatusResult` with status `"unknown"` and the optional
`error` value of the body — no malformed-response error is raised. -/
theorem poll_status_missing_status (fields : List (String × Json)) (task_id text : String)
    (h : lookupKey fields "status" = none) :
    poll_status (.resp 200 text (.ok (Json.obj fields))) task_id =
      .ok ⟨Json.str "unknown", task_id, getD fields "error" Json.null⟩ := by
  simp [poll_status, getD, h]

/-- Witness for `poll_status_missing_status` at the body
`{"error": "boom"}`. -/
theorem poll_status_missing_status_witness :
    lookupKey [("error", Json.str "boom")] "status" = none ∧
    poll_status (.resp 200 "" (.ok (Json.obj [("error", Json.str "boom")]))) "t1" =
      .ok ⟨Json.str "unknown", "t1", getD [("error", Json.str "boom")] "error" Json.null⟩ :=
  ⟨rfl, poll_status_missing_status [("error", Json.str "boom")] "t1" "" rfl⟩

/-- C8: on the async path, a 200 submit response whose dict body has no
`task_id` raises `DoclingHTTPError(200, "No task_id in response: ...")`
(the malformed-response hard error), while the submit response
`{"task_id":"abc"}` followed by poll `{"status":"completed"}` and result
`{"content":"done"}` returns task id `"abc"`, a completed status, and a
successful `ConvertResult` with content `"done"`. -/
theorem async_path_behaviour (fields : List (String × Json)) (text : String)
    (h : lookupKey fields "task_id" = none) :
    convert_file_async (.resp 200 text (.ok (Json.obj fields))) =
      .httpError 200 ("No task_id in response: " ++ jsonRepr (Json.obj fields)) ∧
    convert_file_async (.resp 200 "" (.ok (Json.obj [("task_id", Json.str "abc")]))) =
      .ok (Json.str "abc") ∧
    poll_status (.resp 200 "" (.ok (Json.obj [("status", Json.str "completed")]))) "abc" =
      .ok ⟨Json.str "completed", "abc", Json.null⟩ ∧
    get_result (.resp 200 "" (.ok (Json.obj [("content", Json.str "done")]))) =
      .ok ⟨Json.str "done", Json.str "md", true, none⟩ := by
  refine ⟨?_, rfl, rfl, rfl⟩
  simp [convert_file_async, getD, h, truthy]

/-- Witness for `async_path_behaviour` at the submit body
`{"status": "processing"}` (no task id). -/
theorem async_path_behaviour_witness :
    lookupKey [("status", Json.str "processing")] "task_id" = none ∧
    convert_file_async (.resp 200 "" (.ok (Json.obj [("status", Json.str "processing")]))) =
      .httpError 200
        ("No task_id in response: " ++ jsonRepr (Json.obj [("status", Json.str "processing")])) :=
  ⟨rfl, (async_path_behaviour [("status", Json.str "processing")] "" rfl).1⟩

/-! ### Theorems: lifecycle manager -/

/-- A probe stream with every raised probe replaced by a not-healthy
answer (what the `except Exception: pass` swallow amounts to). -/
def swallowProbe (p : Probe) : Probe :=
  match p with
  | .exc => .ok false
  | x => x

/-- On a never-healthy probe stream the health loop from poll index `k`
times out at elapsed time `2 * max k ⌈timeout/2⌉`. -/
theorem healthLoop_never_healthy (probe : Nat → Probe) (timeout : Nat)
    (h : ∀ j, probe j ≠ .ok true) :
    ∀ n k, timeout - 2 * k ≤ n →
      healthLoop probe timeout k = .timedOut (2 * max k ((timeout + 1) / 2)) := by
  intro n
  induction n with
  | zero =>
    intro k hk
    rw [healthLoop]
    have hge : ¬ 2 * k < timeout := by omega
    simp only [hge, dite_false]
    have : max k ((timeout + 1) / 2) = k := by omega
    rw [this]
  | succ n ih =>
    intro k hk
    rw [healthLoop]
    by_cases hlt : 2 * k < timeout
    · simp only [hlt, dite_true]
      have hmax : max (k + 1) ((timeout + 1) / 2) = max k ((timeout + 1) / 2) := by omega
      have hrec : healthLoop probe timeout (k + 1) =
          .timedOut (2 * max k ((timeout + 1) / 2)) := by
        rw [ih (k + 1) (by omega), hmax]
      cases hp : probe k with
      | ok b =>
        cases b with
        | true => exact absurd hp (h k)
        | false => exact hrec
      | exc => exact hrec
    · simp only [hlt, dite_false]
      have : max k ((timeout + 1) / 2) = k := by omega
      rw [this]

/-- Replacing raised probes by not-healthy answers does not change the
behaviour of the health loop. -/
theorem healthLoop_swallow (probe : Nat → Probe) (timeout : Nat) :
    ∀ n k, timeout - 2 * k ≤ n →
      healthLoop probe timeout k =
        healthLoop (fun j => swallowProbe (probe j)) timeout k := by
  intro n
  induction n with
  | zero =>
    intro k hk
    have hge : ¬ 2 * k < timeout := by omega
    rw [healthLoop]
    conv_rhs => rw [healthLoop]
    simp only [hge, dite_false]
  | succ n ih =>
    intro k hk
    rw [healthLoop]
    conv_rhs => rw [healthLoop]
    by_cases hlt : 2 * k < timeout
    · simp only [hlt, dite_true]
      have hrec := ih (k + 1) (by omega)
      cases hp : probe k with
      | ok b =>
        cases b with
        | true => simp [hp, swallowProbe]
        | false => simpa [hp, swallowProbe] using hrec
      | exc => simpa [hp, swallowProbe] using hrec
    · simp only [hlt, dite_false]

/-- C6: against a service that never reports healthy, `_wait_for_health`
raises its `TimeoutError` at an elapsed time `e` with
`timeout ≤ e ≤ timeout + 2` (the poll interval is 2 seconds), and — for
every probe stream and bound — probes that raise are swallowed and treated
exactly like not-yet-ready answers. -/
theorem wait_for_health_timeout_window (probe : Nat → Probe) (timeout : Nat)
    (h : ∀ k, probe k ≠ .ok true) :
    (∃ e, wait_for_health probe timeout = .timedOut e ∧
      timeout ≤ e ∧ e ≤ timeout + 2) ∧
    (∀ q : Nat → Probe, ∀ T : Nat,
      wait_for_health q T = wait_for_health (fun j => swallowProbe (q j)) T) := by
  constructor
  · refine ⟨2 * ((timeout + 1) / 2), ?_, by omega, by omega⟩
    have := healthLoop_never_healthy probe timeout h timeout 0 (by omega)
    simpa [wait_for_health] using this
  · intro q T
    exact healthLoop_swallow q T T 0 (by omega)

/-- Witness for `wait_for_health_timeout_window`: a probe stream that
always raises, with a 5-second bound. -/
theorem wait_for_health_timeout_window_witness :
    (∀ k : Nat, (fun _ : Nat => Probe.exc) k ≠ .ok true) ∧
    ((∃ e, wait_for_health (fun _ => Probe.exc) 5 = .timedOut e ∧
        5 ≤ e ∧ e ≤ 5 + 2) ∧
      (∀ q : Nat → Probe, ∀ T : Nat,
        wait_for_health q T = wait_for_health (fun j => swallowProbe (q j)) T)) :=
  ⟨fun _ hk => Probe.noConfusion hk,
    wait_for_health_timeout_window (fun _ => Probe.exc) 5 (fun _ hk => Probe.noConfusion hk)⟩

/-- Splitting a trace splits its `stop()` count. -/
theorem stopCalls_append (a b : List Event) :
    stopCalls (a ++ b) = stopCalls a + stopCalls b := by
  simp [stopCalls, List.countP_append]

/-- A trace of engine commands alone contains no `stop()` invocation. -/
theorem stopCalls_map_engineRun (l : List String) (f : String → List String) :
    stopCalls (l.map (fun a => Event.engineRun (f a))) = 0 := by
  simp [stopCalls, List.countP_eq_zero]

/-- The stale-container sweep issues only engine commands, never a
`stop()` method call. -/
theorem stopCalls_cleanup (eng : Engine) (c : DoclingContainer) :
    stopCalls (cleanup_stale_containers eng c) = 0 := by
  simp only [cleanup_stale_containers, subprocessRun]
  split
  · rfl
  · split
    · rfl
    · simp [stopCalls, List.countP_cons, List.countP_eq_zero]

/-- The `start` method emits the same events on every outcome: the sweep
commands followed by the one `run` command. -/
theorem start_events (eng : Engine) (probe : Nat → Probe) (c : DoclingContainer)
    (timeout : Nat) :
    (DoclingContainer.start eng probe c timeout).2 =
      cleanup_stale_containers eng c ++ [.engineRun (runCmd c)] := by
  simp only [DoclingContainer.start]
  cases subprocessRun eng (runCmd c) true with
  | error e => rfl
  | ok r =>
    cases wait_for_health probe timeout with
    | healthy e => rfl
    | timedOut e => rfl

/-- The `start` method never invokes `stop()`. -/
theorem stopCalls_start (eng : Engine) (probe : Nat → Probe) (c : DoclingContainer)
    (timeout : Nat) :
    stopCalls (DoclingContainer.start eng probe c timeout).2 = 0 := by
  rw [start_events, stopCalls_append, stopCalls_cleanup]
  rfl

/-- One `stop()` call records exactly one `stop()` invocation. -/
theorem stopCalls_stop (eng : Engine) (c : DoclingContainer) :
    stopCalls (DoclingContainer.stop eng c).2 = 1 := by
  simp only [DoclingContainer.stop, subprocessRun]
  by_cases hname : c.container_name = ""
  · simp [hname, stopCalls]
  · simp [hname, stopCalls]

/-- C5: `stop()` never raises — for any number of calls, any manager state
(started or not), and any engine behaviour at each call (including failing
stop commands), every call returns normally. -/
theorem stop_never_raises (engs : Nat → Engine) (c : DoclingContainer) (n : Nat) :
    stopN engs c n = .ok () := by
  induction n with
  | zero => rfl
  | succ n ih =>
    have hstop : (DoclingContainer.stop (engs n) c).1 = .ok () := by
      rw [DoclingContainer.stop]
      by_cases hname : c.container_name = ""
      · simp [hname]
      · simp [hname, subprocessRun]
    rw [stopN, hstop]
    exact ih

/-! ### Theorems: the guarded batch region of `main` -/

/-- C3: whenever `start()` succeeds, the guarded batch invokes `stop()`
exactly once, whatever the per-file steps are — normal completion, caught
per-file failures, an escaping exception, or a user interrupt. -/
theorem guarded_stop_exactly_once (eng : Engine) (probe : Nat → Probe)
    (c started : DoclingContainer) (files : List FileStep)
    (h : (DoclingContainer.start eng probe c 120).1 = .ok started) :
    stopCalls (mainBatch eng probe c files).2 = 1 := by
  rcases hp : processFiles files ⟨0, 0, 0⟩ with ⟨acc, be⟩
  have hmain : (mainBatch eng probe c files).2 =
      (DoclingContainer.start eng probe c 120).2 ++
        (DoclingContainer.stop eng started).2 := by
    simp only [mainBatch, h, hp]
    cases be <;> rfl
  rw [hmain, stopCalls_append, stopCalls_start, stopCalls_stop]

/-- Environments for the concrete scenarios: an engine whose every command
succeeds, an engine whose every command fails, an always-healthy probe
stream, and a never-healthy probe stream. -/
def engAllOk : Engine := fun _ => ⟨0, "cid", ""⟩

/-- Engine whose every command exits nonzero with stderr `"boom"`. -/
def engLaunchFail : Engine := fun _ => ⟨1, "", "boom"⟩

/-- Probe stream that reports healthy immediately. -/
def probeHealthy : Nat → Probe := fun _ => .ok true

/-- Probe stream that always reports not healthy. -/
def probeDown : Nat → Probe := fun _ => .ok false

/-- A manager freshly constructed by `__init__`. -/
def sampleContainer : DoclingContainer :=
  ⟨"docker", "img", 5001, 1200, "mdify-serve-abc12345", none⟩

/-- Witness for `guarded_stop_exactly_once`: a healthy start and a batch
with one success, one failure, and an interrupt still stops exactly
once. -/
theorem guarded_stop_exactly_once_witness :
    (DoclingContainer.start engAllOk probeHealthy sampleContainer 120).1 =
      .ok { sampleContainer with container_id := some "cid" } ∧
    stopCalls (mainBatch engAllOk probeHealthy sampleContainer
        [.convOk, .convFail, .interrupt]).2 = 1 := by
  have hw : wait_for_health probeHealthy 120 = .healthy 0 := by
    rw [wait_for_health]
    unfold healthLoop
    norm_num [probeHealthy]
  have hstart : (DoclingContainer.start engAllOk probeHealthy sampleContainer 120).1 =
      .ok { sampleContainer with container_id := some "cid" } := by
    simp only [DoclingContainer.start]
    rw [hw]
    rfl
  exact ⟨hstart,
    guarded_stop_exactly_once engAllOk probeHealthy sampleContainer
      { sampleContainer with container_id := some "cid" }
      [.convOk, .convFail, .interrupt] hstart⟩

/-- C1 counterexample: with an engine that launches fine but a service
that never becomes healthy, `start()` raises its `TimeoutError` out of
the batch and `stop()` is never invoked — `__exit__` does not run when
`__enter__` raises, and `main` has no other teardown. -/
theorem start_timeout_no_stop_cex :
    (mainBatch engAllOk probeDown sampleContainer []).1 =
      .uncaught (.containerErr (.timeoutError
        "Container failed to become healthy within 120s")) ∧
    stopCalls (mainBatch engAllOk probeDown sampleContainer []).2 = 0 := by
  have hw : wait_for_health probeDown 120 = .timedOut 120 := by
    have h := healthLoop_never_healthy probeDown 120
      (fun j => by simp [probeDown]) 120 0 (by omega)
    simpa [wait_for_health] using h
  have hstart : (DoclingContainer.start engAllOk probeDown sampleContainer 120).1 =
      .error (.timeoutError "Container failed to become healthy within 120s") := by
    simp only [DoclingContainer.start]
    rw [hw]
    rfl
  constructor
  · simp only [mainBatch, hstart]
  · simp only [mainBatch, hstart]
    exact stopCalls_start engAllOk probeDown sampleContainer 120

/-- C1 (amended): when `start()` fails fatally (launch error or health
timeout), the exception propagates out of the batch with `stop()` never
invoked on that run; the partially-started instance is left to the
stale-container sweep in the `start()` of a later run. -/
theorem start_failure_skips_stop (eng : Engine) (probe : Nat → Probe)
    (c : DoclingContainer) (files : List FileStep) (e : ContainerErr)
    (h : (DoclingContainer.start eng probe c 120).1 = .error e) :
    (mainBatch eng probe c files).1 = .uncaught (.containerErr e) ∧
    stopCalls (mainBatch eng probe c files).2 = 0 := by
  constructor
  · simp only [mainBatch, h]
  · simp only [mainBatch, h]
    exact stopCalls_start eng probe c 120

/-- Witness for `start_failure_skips_stop`: a failing `run` command. -/
theorem start_failure_skips_stop_witness :
    (DoclingContainer.start engLaunchFail probeDown sampleContainer 120).1 =
      .error (.calledProcessError
        ⟨1, runCmd sampleContainer, "", "Failed to start container: boom"⟩) ∧
    ((mainBatch engLaunchFail probeDown sampleContainer [.convOk]).1 =
        .uncaught (.containerErr (.calledProcessError
          ⟨1, runCmd sampleContainer, "", "Failed to start container: boom"⟩)) ∧
      stopCalls (mainBatch engLaunchFail probeDown sampleContainer [.convOk]).2 = 0) := by
  have hstart : (DoclingContainer.start engLaunchFail probeDown sampleContainer 120).1 =
      .error (.calledProcessError
        ⟨1, runCmd sampleContainer, "", "Failed to start container: boom"⟩) := rfl
  exact ⟨hstart,
    start_failure_skips_stop engLaunchFail probeDown sampleContainer [.convOk] _ hstart⟩

end Mdify
